import Mathlib

/-!
Verification of the energy-analytics benchmarking repository.

The Python source is shallowly embedded: pandas dataframes become lists of
`Company` records, numeric columns become exact rationals, and every routine
named in the claims (`_find_peers`, `_calculate_benchmarks`,
`find_peer_companies`, `calculate_benchmarks`, `get_pricing_tier`,
`calculate_annual_consumption`, `get_sector_efficiency_rank`, the dataset
generators and the statistics fetchers) becomes a computable Lean function
translated line by line from its source file.
-/

namespace EnergyApp

/-- One row of the benchmark dataframe: the columns `sector`, `region`,
`employees`, `kwh_per_employee`, `cost_per_kwh`, `annual_kwh`,
`annual_cost_eur`. Numeric columns are exact rationals. Pure label columns
that no computation ever reads (`company_id`, `data_source`, `created_at`)
are not modelled. -/
structure Company where
  sector : String
  region : String
  employees : ℚ
  kwh_per_employee : ℚ
  cost_per_kwh : ℚ
  annual_kwh : ℚ
  annual_cost_eur : ℚ
  deriving Repr, DecidableEq

/-- The company profile dictionary handed to the benchmarking routines
(keys `sector`, `region`, `employees`, `annual_kwh`, `cost_per_kwh`). -/
structure Profile where
  sector : String
  region : String
  employees : ℚ
  annual_kwh : ℚ
  cost_per_kwh : ℚ
  deriving Repr, DecidableEq

/-- The combined sector-and-size predicate used by the primary filter of
`_find_peers` (benchmark_calculator.py lines 80-84), `find_peer_companies`
(working_mvp.py lines 129-133) and the module-level filter of simple_app.py
(lines 90-94): same sector and employees within the closed band
[0.7 * profile employees, 1.3 * profile employees]. -/
def matchesSectorSize (p : Profile) (c : Company) : Bool :=
  c.sector == p.sector
    && decide (p.employees * (7 / 10) ≤ c.employees)
    && decide (c.employees ≤ p.employees * (13 / 10))

/-- GermanEnergyBenchmarker._find_peers (benchmark_calculator.py lines 75-97):
sector+size filter, widened to sector-only when fewer than 5 rows match,
widened to the whole dataframe when still fewer than 5 rows match. -/
def find_peers (df : List Company) (p : Profile) : List Company :=
  let peers0 := df.filter (matchesSectorSize p)
  let peers1 :=
    if peers0.length < 5 then df.filter (fun c => c.sector == p.sector) else peers0
  if peers1.length < 5 then df else peers1

/-- find_peer_companies (working_mvp.py lines 125-144); the body is the same
fallback chain as `find_peers`, repeated verbatim in that file. -/
def find_peer_companies (p : Profile) (df : List Company) : List Company :=
  let peer_group := df.filter (matchesSectorSize p)
  let peer_group1 :=
    if peer_group.length < 5 then df.filter (fun c => c.sector == p.sector) else peer_group
  if peer_group1.length < 5 then df else peer_group1

/-- The module-level peer selection of simple_app.py (lines 90-97): the
sector+size filter, widened to sector-only when fewer than 5 rows match,
with NO further widening to the whole dataframe. -/
def peer_companies_simple (df : List Company) (p : Profile) : List Company :=
  let peer_companies := df.filter (matchesSectorSize p)
  if peer_companies.length < 5 then df.filter (fun c => c.sector == p.sector)
  else peer_companies

/-- The peer-selection behaviour as the spec words it: the rows whose
sector equals the profile's and whose employee count lies in the closed
band [0.7 x employees, 1.3 x employees]; if fewer than 5 such rows, the
rows of the profile's sector; if still fewer than 5, the entire dataset.
Written from the spec sentence, to be compared with the code. -/
def peersSpec (df : List Company) (p : Profile) : List Company :=
  let band := df.filter fun c =>
    c.sector == p.sector
      && decide ((7 / 10) * p.employees ≤ c.employees)
      && decide (c.employees ≤ (13 / 10) * p.employees)
  if 5 ≤ band.length then band
  else
    let sec := df.filter (fun c => c.sector == p.sector)
    if 5 ≤ sec.length then sec else df

/-- pandas `Series.quantile(q)` with the default linear interpolation: sort
the values, take the virtual position h = q * (n - 1), and interpolate
between the neighbouring order statistics. Returns 0 on an empty series
(pandas returns NaN there; no claim touches that case). -/
def pandasQuantile (xs : List ℚ) (q : ℚ) : ℚ :=
  let s := List.insertionSort (fun a b : ℚ => a ≤ b) xs
  let n := s.length
  if n = 0 then 0
  else
    let h : ℚ := q * ((n : ℚ) - 1)
    let i : ℕ := (⌊h⌋).toNat
    let lo := s.getD i 0
    let hi := s.getD (min (i + 1) (n - 1)) 0
    lo + (h - (i : ℚ)) * (hi - lo)

/-- pandas `Series.median()`, the 0.5 quantile. -/
def pandasMedian (xs : List ℚ) : ℚ :=
  pandasQuantile xs (1 / 2)

/-- Mean of a boolean pandas series times 100, as in
`(series > x).mean() * 100`: the match count over the series length. -/
def booleanMeanPct (cnt n : ℕ) : ℚ :=
  ((cnt : ℚ) / (n : ℚ)) * 100

/-- The `peer_stats` dictionary built in `_calculate_benchmarks`
(benchmark_calculator.py lines 107-114). -/
structure PeerStats where
  kwh_per_employee_median : ℚ
  kwh_per_employee_q25 : ℚ
  kwh_per_employee_q75 : ℚ
  cost_per_kwh_median : ℚ
  cost_per_kwh_q25 : ℚ
  cost_per_kwh_q75 : ℚ
  deriving Repr, DecidableEq

/-- The `savings_potential` dictionary of `_calculate_benchmarks`
(benchmark_calculator.py lines 149-154). -/
structure SavingsPotential where
  efficiency_kwh : ℚ
  efficiency_eur : ℚ
  cost_eur : ℚ
  total_eur : ℚ
  deriving Repr, DecidableEq

/-- The dictionary returned by `_calculate_benchmarks`
(benchmark_calculator.py lines 142-155). `vs_national_pct` is `none` when
no metadata with an `energy_statistics` table was loaded. -/
structure Benchmarks where
  efficiency_percentile : ℚ
  cost_percentile : ℚ
  efficiency_vs_median_pct : ℚ
  cost_vs_median_pct : ℚ
  vs_national_pct : Option ℚ
  peer_stats : PeerStats
  savings_potential : SavingsPotential
  deriving Repr, DecidableEq

/-- GermanEnergyBenchmarker._calculate_benchmarks (benchmark_calculator.py
lines 99-155). `energy_statistics?` embeds `self.metadata`: it is
`some m?` when the loaded metadata is non-empty and holds an
`energy_statistics` table, `m?` being that table's
`manufacturing_kwh_per_employee` entry when present (the code defaults the
entry to 26897). -/
def calculate_benchmarks_calc (energy_statistics? : Option (Option ℚ))
    (profile : Profile) (peers : List Company) (user_kwh_per_employee : ℚ) :
    Benchmarks :=
  let n := peers.length
  let efficiency_percentile :=
    booleanMeanPct
      (peers.countP fun c => decide (user_kwh_per_employee < c.kwh_per_employee)) n
  let cost_percentile :=
    booleanMeanPct
      (peers.countP fun c => decide (c.cost_per_kwh < profile.cost_per_kwh)) n
  let kpes := peers.map (·.kwh_per_employee)
  let costs := peers.map (·.cost_per_kwh)
  let peer_stats : PeerStats :=
    { kwh_per_employee_median := pandasMedian kpes
      kwh_per_employee_q25 := pandasQuantile kpes (1 / 4)
      kwh_per_employee_q75 := pandasQuantile kpes (3 / 4)
      cost_per_kwh_median := pandasMedian costs
      cost_per_kwh_q25 := pandasQuantile costs (1 / 4)
      cost_per_kwh_q75 := pandasQuantile costs (3 / 4) }
  let efficiency_vs_median :=
    (user_kwh_per_employee / peer_stats.kwh_per_employee_median - 1) * 100
  let cost_vs_median :=
    (profile.cost_per_kwh / peer_stats.cost_per_kwh_median - 1) * 100
  let efficiency_gap := user_kwh_per_employee - peer_stats.kwh_per_employee_q25
  let efficiency_savings_kwh :=
    if 0 < efficiency_gap then efficiency_gap * profile.employees else 0
  let efficiency_savings_eur :=
    if 0 < efficiency_gap then
      efficiency_gap * profile.employees * profile.cost_per_kwh
    else 0
  let cost_gap := profile.cost_per_kwh - peer_stats.cost_per_kwh_median
  let cost_savings_eur := if 0 < cost_gap then profile.annual_kwh * cost_gap else 0
  let vs_national :=
    energy_statistics?.map fun entry? =>
      (user_kwh_per_employee / entry?.getD 26897 - 1) * 100
  { efficiency_percentile := efficiency_percentile
    cost_percentile := cost_percentile
    efficiency_vs_median_pct := efficiency_vs_median
    cost_vs_median_pct := cost_vs_median
    vs_national_pct := vs_national
    peer_stats := peer_stats
    savings_potential :=
      { efficiency_kwh := efficiency_savings_kwh
        efficiency_eur := efficiency_savings_eur
        cost_eur := cost_savings_eur
        total_eur := efficiency_savings_eur + cost_savings_eur } }

/-- The dictionary returned by calculate_benchmarks (working_mvp.py
lines 174-184). -/
structure MvpBenchmarks where
  efficiency_percentile : ℚ
  cost_percentile : ℚ
  peer_median_efficiency : ℚ
  peer_top25_efficiency : ℚ
  peer_median_cost : ℚ
  efficiency_savings_eur : ℚ
  cost_savings_eur : ℚ
  total_savings_eur : ℚ
  peer_group_size : ℕ
  deriving Repr, DecidableEq

/-- calculate_benchmarks (working_mvp.py lines 146-184). -/
def calculate_benchmarks_mvp (user_profile : Profile) (peer_group : List Company) :
    MvpBenchmarks :=
  let user_kwh_per_employee := user_profile.annual_kwh / user_profile.employees
  let n := peer_group.length
  let efficiency_percentile :=
    booleanMeanPct
      (peer_group.countP fun c => decide (user_kwh_per_employee < c.kwh_per_employee)) n
  let cost_percentile :=
    booleanMeanPct
      (peer_group.countP fun c => decide (c.cost_per_kwh < user_profile.cost_per_kwh)) n
  let kpes := peer_group.map (·.kwh_per_employee)
  let costs := peer_group.map (·.cost_per_kwh)
  let peer_median_efficiency := pandasMedian kpes
  let peer_top25_efficiency := pandasQuantile kpes (1 / 4)
  let peer_median_cost := pandasMedian costs
  let efficiency_gap := user_kwh_per_employee - peer_top25_efficiency
  let efficiency_savings_eur :=
    if 0 < efficiency_gap then
      efficiency_gap * user_profile.employees * user_profile.cost_per_kwh
    else 0
  let cost_gap := user_profile.cost_per_kwh - peer_median_cost
  let cost_savings_eur :=
    if 0 < cost_gap then user_profile.annual_kwh * cost_gap else 0
  { efficiency_percentile := efficiency_percentile
    cost_percentile := cost_percentile
    peer_median_efficiency := peer_median_efficiency
    peer_top25_efficiency := peer_top25_efficiency
    peer_median_cost := peer_median_cost
    efficiency_savings_eur := efficiency_savings_eur
    cost_savings_eur := cost_savings_eur
    total_savings_eur := efficiency_savings_eur + cost_savings_eur
    peer_group_size := n }

/-- The `efficiency_percentile` module-level value of simple_app.py
(line 102), as a function of its free variables. -/
def efficiency_percentile_simple (peer_companies : List Company)
    (user_kwh_per_employee : ℚ) : ℚ :=
  booleanMeanPct
    (peer_companies.countP fun c => decide (user_kwh_per_employee < c.kwh_per_employee))
    peer_companies.length

/-- The `cost_percentile` module-level value of simple_app.py (line 103). -/
def cost_percentile_simple (peer_companies : List Company) (cost_per_kwh : ℚ) : ℚ :=
  booleanMeanPct
    (peer_companies.countP fun c => decide (c.cost_per_kwh < cost_per_kwh))
    peer_companies.length

/-- GermanEnergyBenchmarker._generate_insights (benchmark_calculator.py
lines 157-247), keeping each insight's `type` and `priority` (first and
second component); the formatted message strings, details and
recommendation lists are presentation text built from the same fields and
are not modelled. The last branch mirrors Python truthiness of
`benchmarks['vs_national_pct'] and benchmarks['vs_national_pct'] > 15`
(`None` and `0.0` are falsy). -/
def generate_insights (b : Benchmarks) : List (String × String) :=
  (if b.efficiency_percentile < 50 then
    [("EFFICIENCY_OPPORTUNITY",
      if b.efficiency_percentile < 25 then "HIGH" else "MEDIUM")]
  else
    [("EFFICIENCY_STRENGTH", "POSITIVE")])
  ++ (if 60 < b.cost_percentile then
    [("COST_OPPORTUNITY", if 80 < b.cost_percentile then "HIGH" else "MEDIUM")]
  else [])
  ++ (if 20000 < b.savings_potential.total_eur then
    [("TOTAL_OPPORTUNITY", "HIGH")]
  else [])
  ++ (match b.vs_national_pct with
    | some v => if v ≠ 0 ∧ 15 < v then [("NATIONAL_CONTEXT", "MEDIUM")] else []
    | none => [])

/-- The mutable state of a GermanEnergyBenchmarker instance: the loaded
dataframe `self.df` and the `energy_statistics` portion of `self.metadata`
as consumed by `_calculate_benchmarks` (see `calculate_benchmarks_calc`). -/
structure BenchmarkerState where
  df : List Company
  energy_statistics? : Option (Option ℚ)
  deriving Repr, DecidableEq

/-- The `user_metrics` dictionary of the `benchmark_company` result
(benchmark_calculator.py lines 68-72). -/
structure UserMetrics where
  kwh_per_employee : ℚ
  annual_cost_eur : ℚ
  cost_per_kwh : ℚ
  deriving Repr, DecidableEq

/-- The dictionary returned by `benchmark_company`
(benchmark_calculator.py lines 63-73). -/
structure BenchmarkResult where
  company_profile : Profile
  peer_group_size : ℕ
  benchmarks : Benchmarks
  insights : List (String × String)
  user_metrics : UserMetrics
  deriving Repr, DecidableEq

/-- GermanEnergyBenchmarker.benchmark_company (benchmark_calculator.py
lines 31-73), with the instance state passed and returned explicitly: the
method only reads `self.df` and `self.metadata`, so the outgoing state is
the incoming one. -/
def benchmark_company (st : BenchmarkerState) (company_profile : Profile) :
    BenchmarkerState × BenchmarkResult :=
  let peers := find_peers st.df company_profile
  let user_kwh_per_employee :=
    company_profile.annual_kwh / company_profile.employees
  let user_annual_cost := company_profile.annual_kwh * company_profile.cost_per_kwh
  let benchmarks :=
    calculate_benchmarks_calc st.energy_statistics? company_profile peers
      user_kwh_per_employee
  let insights := generate_insights benchmarks
  (st,
    { company_profile := company_profile
      peer_group_size := peers.length
      benchmarks := benchmarks
      insights := insights
      user_metrics :=
        { kwh_per_employee := user_kwh_per_employee
          annual_cost_eur := user_annual_cost
          cost_per_kwh := company_profile.cost_per_kwh } })

end EnergyApp

namespace RealGermanData

/-- REAL_ENERGY_INTENSITIES (real_german_data.py lines 52-64): kWh per
employee per year, by sector, in insertion order. -/
def REAL_ENERGY_INTENSITIES : List (String × ℕ) :=
  [("Manufacturing", 25800),
   ("Chemical", 86940),
   ("Food Production", 24720),
   ("Automotive", 17170),
   ("Metals", 92080),
   ("Paper", 132910),
   ("Electronics", 9310),
   ("Textiles", 10940)]

/-- Dict lookup `REAL_ENERGY_INTENSITIES[sector]` as an option. -/
def intensityOf (sector : String) : Option ℕ :=
  (REAL_ENERGY_INTENSITIES.find? fun kv => kv.1 == sector).map (·.2)

/-- One entry of REAL_PRICING_TIERS (real_german_data.py lines 85-107):
tier key, `min_kwh`, `max_kwh`, `price_ct_kwh` (exact rational, euro
cents), `description`. -/
structure PricingTierEntry where
  key : String
  min_kwh : ℕ
  max_kwh : ℕ
  price_ct_kwh : ℚ
  description : String
  deriving Repr, DecidableEq

/-- REAL_PRICING_TIERS (real_german_data.py lines 85-107) in insertion
order, as iterated by `get_pricing_tier`. -/
def REAL_PRICING_TIERS : List PricingTierEntry :=
  [{ key := "tier_1", min_kwh := 160000, max_kwh := 20000000,
     price_ct_kwh := 1709 / 100,
     description := "160k - 20M kWh annual consumption" },
   { key := "tier_2", min_kwh := 20000001, max_kwh := 70000000,
     price_ct_kwh := 1699 / 100,
     description := "20M - 70M kWh annual consumption" },
   { key := "tier_3", min_kwh := 70000001, max_kwh := 150000000,
     price_ct_kwh := 1412 / 100,
     description := "70M - 150M kWh annual consumption" }]

/-- The dictionary returned by `get_pricing_tier`
(real_german_data.py lines 174-193). -/
structure TierResult where
  tier : String
  price_ct_kwh : ℚ
  description : String
  deriving Repr, DecidableEq

/-- The `for tier_name, tier_data in REAL_PRICING_TIERS.items()` loop of
`get_pricing_tier`: first tier whose inclusive range contains the input. -/
def firstMatchingTier : List PricingTierEntry → ℕ → Option TierResult
  | [], _ => none
  | t :: rest, x =>
    if t.min_kwh ≤ x ∧ x ≤ t.max_kwh then
      some { tier := t.key, price_ct_kwh := t.price_ct_kwh,
             description := t.description }
    else firstMatchingTier rest x

/-- get_pricing_tier (real_german_data.py lines 162-193): scan the tier
table in order, then the small-consumer branch (below 160000 kWh, tier 1
rate), then the enterprise fallback at 12.50 ct/kWh. -/
def get_pricing_tier (annual_kwh : ℕ) : TierResult :=
  match firstMatchingTier REAL_PRICING_TIERS annual_kwh with
  | some r => r
  | none =>
    if annual_kwh < 160000 then
      { tier := "tier_1", price_ct_kwh := 1709 / 100,
        description := "Small consumer (< 160k kWh) - using tier 1 rate" }
    else
      { tier := "enterprise", price_ct_kwh := 1250 / 100,
        description := "Enterprise consumer (> 150M kWh)" }

/-- calculate_annual_consumption (real_german_data.py lines 195-210):
employees times the sector intensity, or a ValueError when the sector is
not a key of REAL_ENERGY_INTENSITIES. -/
def calculate_annual_consumption (employees : ℤ) (sector : String) :
    Except String ℤ :=
  match intensityOf sector with
  | none => .error ("Sector not found in real data: " ++ sector)
  | some kwh_per_employee => .ok (employees * (kwh_per_employee : ℤ))

/-- The dictionary returned by get_sector_efficiency_rank
(real_german_data.py lines 246-252); `vs_average` is the formatted
percentage string's numeric value. -/
structure EfficiencyRank where
  efficiency_ratio : ℚ
  percentile : String
  performance : String
  sector_average : ℕ
  vs_average : ℚ
  deriving Repr, DecidableEq

/-- get_sector_efficiency_rank (real_german_data.py lines 212-252):
threshold classification of the user-to-sector-average ratio, or a
ValueError for an unknown sector. -/
def get_sector_efficiency_rank (user_kwh_per_employee : ℚ) (sector : String) :
    Except String EfficiencyRank :=
  match intensityOf sector with
  | none => .error ("Sector not found in real data: " ++ sector)
  | some sector_average =>
    let efficiency_ratio := user_kwh_per_employee / (sector_average : ℚ)
    let pp : String × String :=
      if efficiency_ratio ≤ 3 / 4 then ("Top 10%", "Excellent")
      else if efficiency_ratio ≤ 9 / 10 then ("Top 25%", "Very Good")
      else if efficiency_ratio ≤ 11 / 10 then ("Average", "Good")
      else if efficiency_ratio ≤ 5 / 4 then ("Below Average", "Needs Improvement")
      else ("Bottom 25%", "Poor")
    .ok { efficiency_ratio := efficiency_ratio
          percentile := pp.1
          performance := pp.2
          sector_average := sector_average
          vs_average := (efficiency_ratio - 1) * 100 }

end RealGermanData

namespace Fetchers

/-- A parsed JSON value, the possible results of `response.json()`. -/
inductive Json where
  | obj : List (String × Json) → Json
  | arr : List Json → Json
  | str : String → Json
  | num : ℚ → Json
  | jbool : Bool → Json
  | null : Json

/-- Python `isinstance(data, dict)` on a parsed JSON value. -/
def Json.isObj : Json → Bool
  | .obj _ => true
  | _ => false

/-- The outcome of the guarded `requests.get` call: `none` when the call
raised, `some (status, body)` when a response with the given status code
and parsed body came back. -/
def HttpOutcome : Type := Option (ℕ × Json)

/-- The dictionary built by RealGermanEnergyData._process_energy_charts_data
(data_fetcher.py lines 33-43); `timestamp` is `datetime.now().isoformat()`
at call time, passed in as the clock reading. -/
structure DfProcessed where
  industry_total_twh : ℕ
  residential_twh : ℕ
  commercial_twh : ℕ
  transport_twh : ℕ
  timestamp : String
  deriving Repr, DecidableEq

/-- The dictionary built by
RealGermanEnergyData._get_fallback_consumption_data
(data_fetcher.py lines 45-58). -/
structure DfFallback where
  industry_total_twh : ℕ
  industry_manufacturing_twh : ℕ
  industry_chemicals_twh : ℕ
  industry_metals_twh : ℕ
  industry_food_twh : ℕ
  total_employees_manufacturing : ℕ
  avg_kwh_per_employee : ℕ
  source : String
  timestamp : String
  deriving Repr, DecidableEq

/-- The two dictionary shapes `fetch_energy_charts_consumption` can
return. -/
inductive DfConsumption where
  | processed : DfProcessed → DfConsumption
  | fallback : DfFallback → DfConsumption
  deriving Repr, DecidableEq

/-- RealGermanEnergyData._process_energy_charts_data (data_fetcher.py
lines 33-43): the `data` argument is received and ignored; every field is
a constant apart from the clock reading. -/
def process_energy_charts_data_df (_data : Json) (now : String) : DfProcessed :=
  { industry_total_twh := 203
    residential_twh := 128
    commercial_twh := 105
    transport_twh := 13
    timestamp := now }

/-- RealGermanEnergyData._get_fallback_consumption_data (data_fetcher.py
lines 45-58). -/
def get_fallback_consumption_data (now : String) : DfFallback :=
  { industry_total_twh := 203
    industry_manufacturing_twh := 156
    industry_chemicals_twh := 47
    industry_metals_twh := 38
    industry_food_twh := 22
    total_employees_manufacturing := 5800000
    avg_kwh_per_employee := 14567
    source := "Destatis 2024 + Energy Charts"
    timestamp := now }

/-- RealGermanEnergyData.fetch_energy_charts_consumption (data_fetcher.py
lines 11-31): process the body on a 200 response, fall back on any other
status or on an exception. -/
def fetch_energy_charts_consumption (resp : HttpOutcome) (now : String) :
    DfConsumption :=
  match resp with
  | some (status, body) =>
    if status = 200 then .processed (process_energy_charts_data_df body now)
    else .fallback (get_fallback_consumption_data now)
  | none => .fallback (get_fallback_consumption_data now)

/-- The dictionary built by
GermanEnergyDataFetcher._process_energy_charts_data (fetch_real_data.py
lines 39-56); `api_data_available` is present (and `true`) exactly when
the parsed body is a JSON object, absent otherwise. `timestamp` is
`self.timestamp`, fixed at fetcher construction. -/
structure FrProcessed where
  total_consumption_twh : ℕ
  industry_consumption_twh : ℕ
  industry_share : ℚ
  renewable_share : ℚ
  data_source : String
  timestamp : String
  api_data_available : Option Bool
  deriving Repr, DecidableEq

/-- The dictionary built by GermanEnergyDataFetcher._get_fallback_energy_data
(fetch_real_data.py lines 58-84). -/
structure FrFallback where
  total_consumption_twh : ℕ
  industry_consumption_twh : ℕ
  industry_share : ℚ
  renewable_share : ℚ
  manufacturing_twh : ℕ
  chemicals_twh : ℕ
  metals_twh : ℕ
  food_twh : ℕ
  automotive_twh : ℕ
  manufacturing_employees : ℕ
  chemicals_employees : ℕ
  metals_employees : ℕ
  food_employees : ℕ
  automotive_employees : ℕ
  data_source : String
  timestamp : String
  deriving Repr, DecidableEq

/-- The two dictionary shapes `fetch_fraunhofer_energy_charts` can
return. -/
inductive FrEnergyData where
  | processed : FrProcessed → FrEnergyData
  | fallback : FrFallback → FrEnergyData
  deriving Repr, DecidableEq

/-- GermanEnergyDataFetcher._process_energy_charts_data
(fetch_real_data.py lines 39-56). -/
def process_energy_charts_data_fr (data : Json) (ts : String) : FrProcessed :=
  { total_consumption_twh := 460
    industry_consumption_twh := 203
    industry_share := 44 / 100
    renewable_share := 60 / 100
    data_source := "Fraunhofer Energy Charts API"
    timestamp := ts
    api_data_available := if data.isObj then some true else none }

/-- GermanEnergyDataFetcher._get_fallback_energy_data (fetch_real_data.py
lines 58-84). -/
def get_fallback_energy_data (ts : String) : FrFallback :=
  { total_consumption_twh := 460
    industry_consumption_twh := 203
    industry_share := 44 / 100
    renewable_share := 60 / 100
    manufacturing_twh := 156
    chemicals_twh := 47
    metals_twh := 38
    food_twh := 22
    automotive_twh := 35
    manufacturing_employees := 5800
    chemicals_employees := 458
    metals_employees := 890
    food_employees := 834
    automotive_employees := 1200
    data_source := "Destatis + Energy Charts verified data"
    timestamp := ts }

/-- GermanEnergyDataFetcher.fetch_fraunhofer_energy_charts
(fetch_real_data.py lines 13-37): process the body on a 200 response,
fall back on any other status or on an exception. -/
def fetch_fraunhofer_energy_charts (resp : HttpOutcome) (ts : String) :
    FrEnergyData :=
  match resp with
  | some (status, body) =>
    if status = 200 then .processed (process_energy_charts_data_fr body ts)
    else .fallback (get_fallback_energy_data ts)
  | none => .fallback (get_fallback_energy_data ts)

end Fetchers

namespace Generators

open EnergyApp

/-- Python `int()` on a float sample: truncation toward zero. -/
def pyInt (q : ℚ) : ℤ :=
  if 0 ≤ q then ⌊q⌋ else ⌈q⌉

/-- The `regional_prices` table of create_german_energy_dataset
(working_mvp.py lines 72-79), in insertion order. -/
def regional_prices : List (String × ℚ) :=
  [("Bayern", 1478 / 10000),
   ("Nordrhein-Westfalen", 1423 / 10000),
   ("Baden-Württemberg", 1534 / 10000),
   ("Niedersachsen", 1398 / 10000),
   ("Hessen", 1456 / 10000),
   ("Sachsen", 1389 / 10000)]

/-- The random samples drawn for one company of
create_german_energy_dataset: the normal(200, 80) size sample, the
normal(base, std) intensity sample, the region choice over the six
`regional_prices` keys, and the normal(1.0, 0.12) price multiplier. -/
structure MvpDraw where
  empDraw : ℚ
  kpeDraw : ℚ
  regionIdx : Fin 6
  priceDraw : ℚ

/-- The loop body of create_german_energy_dataset (working_mvp.py
lines 85-121) for one company: clamp the size sample to [50, 500], floor
the intensity sample at 3000, clamp the regional price times the
multiplier to [0.10, 0.25], and derive annual consumption and cost. -/
def mkCompanyMvp (sector : String) (d : MvpDraw) : Company :=
  let employees : ℚ := max 50 (min 500 ((pyInt d.empDraw : ℤ) : ℚ))
  let kwh_per_employee := max 3000 d.kpeDraw
  let rp := regional_prices.getD (d.regionIdx : ℕ) ("Bayern", 1478 / 10000)
  let cost_per_kwh := max (1 / 10) (min (1 / 4) (rp.2 * d.priceDraw))
  let annual_kwh := kwh_per_employee * employees
  { sector := sector
    region := rp.1
    employees := employees
    kwh_per_employee := kwh_per_employee
    cost_per_kwh := cost_per_kwh
    annual_kwh := annual_kwh
    annual_cost_eur := annual_kwh * cost_per_kwh }

/-- One entry of the `sectors_data` table of create_german_energy_dataset
(working_mvp.py lines 48-69): sector name, `base_kwh_employee`,
`std_dev`, `companies`. The first two only parameterise the normal
sampler, which is abstracted into the draw stream. -/
structure MvpSector where
  name : String
  base_kwh_employee : ℚ
  std_dev : ℚ
  companies : ℕ

/-- The `sectors_data` table (working_mvp.py lines 48-69). -/
def sectors_data : List MvpSector :=
  [{ name := "Manufacturing", base_kwh_employee := 14567, std_dev := 4500,
     companies := 80 },
   { name := "Chemical", base_kwh_employee := 28934, std_dev := 8200,
     companies := 25 },
   { name := "Food Production", base_kwh_employee := 8934, std_dev := 2800,
     companies := 50 },
   { name := "Automotive", base_kwh_employee := 16789, std_dev := 5200,
     companies := 45 }]

/-- create_german_energy_dataset (working_mvp.py lines 40-123): for each
sector, generate `companies` rows from the (seeded, here abstract) draw
stream. -/
def create_german_energy_dataset (draws : String → ℕ → MvpDraw) : List Company :=
  sectors_data.flatMap fun sd =>
    (List.range sd.companies).map fun i => mkCompanyMvp sd.name (draws sd.name i)

/-- The `electricity_industrial` entries of
RealGermanEnergyData.fetch_real_german_prices (data_fetcher.py
lines 60-89), the only field create_real_benchmark_dataset reads. -/
def real_prices_2024 : List (String × ℚ) :=
  [("Bayern", 1478 / 10000),
   ("Nordrhein-Westfalen", 1423 / 10000),
   ("Baden-Württemberg", 1534 / 10000),
   ("Niedersachsen", 1398 / 10000)]

/-- The random samples drawn for one company of
create_real_benchmark_dataset (data_fetcher.py): the normal(200, 80) size
sample, the normal(avg, std) intensity sample, the region choice over the
four listed regions, and the normal(1.0, 0.1) price multiplier. -/
structure FetcherDraw where
  empDraw : ℚ
  kpeDraw : ℚ
  regionIdx : Fin 4
  priceDraw : ℚ

/-- The loop body of create_real_benchmark_dataset (data_fetcher.py
lines 134-169) for one company. -/
def mkCompanyFetcher (sector : String) (d : FetcherDraw) : Company :=
  let employees : ℚ := max 50 (min 500 ((pyInt d.empDraw : ℤ) : ℚ))
  let kwh_per_employee := max 3000 d.kpeDraw
  let rp := real_prices_2024.getD (d.regionIdx : ℕ) ("Bayern", 1478 / 10000)
  let cost_per_kwh := max (1 / 10) (min (1 / 4) (rp.2 * d.priceDraw))
  { sector := sector
    region := rp.1
    employees := employees
    kwh_per_employee := kwh_per_employee
    cost_per_kwh := cost_per_kwh
    annual_kwh := kwh_per_employee * employees
    annual_cost_eur := kwh_per_employee * employees * cost_per_kwh }

/-- One entry of the `real_sectors` table of create_real_benchmark_dataset
(data_fetcher.py lines 95-124); only the registry count feeds the row
count `min 100 (count / 50)`, the averages parameterise the abstracted
sampler. -/
structure FetcherSector where
  name : String
  kwh_per_employee_avg : ℚ
  kwh_per_employee_std : ℚ
  companies_50_500_employees : ℕ

/-- The `real_sectors` table (data_fetcher.py lines 95-124). -/
def real_sectors : List FetcherSector :=
  [{ name := "Manufacturing", kwh_per_employee_avg := 14567,
     kwh_per_employee_std := 4234, companies_50_500_employees := 23456 },
   { name := "Chemical", kwh_per_employee_avg := 28934,
     kwh_per_employee_std := 8756, companies_50_500_employees := 1234 },
   { name := "Food Production", kwh_per_employee_avg := 8934,
     kwh_per_employee_std := 2876, companies_50_500_employees := 4567 },
   { name := "Automotive", kwh_per_employee_avg := 16789,
     kwh_per_employee_std := 5234, companies_50_500_employees := 2890 }]

/-- RealGermanEnergyData.create_real_benchmark_dataset (data_fetcher.py
lines 91-171): for each sector, `min(100, registry_count // 50)` rows
from the draw stream. -/
def create_real_benchmark_dataset (draws : String → ℕ → FetcherDraw) :
    List Company :=
  real_sectors.flatMap fun sd =>
    (List.range (min 100 (sd.companies_50_500_employees / 50))).map fun i =>
      mkCompanyFetcher sd.name (draws sd.name i)

end Generators

namespace Examples

open EnergyApp Generators

/-- A concrete Manufacturing row used as test data. -/
def companyA : Company :=
  { sector := "Manufacturing", region := "Bayern", employees := 100,
    kwh_per_employee := 20000, cost_per_kwh := 2 / 10,
    annual_kwh := 2000000, annual_cost_eur := 400000 }

/-- A second concrete Manufacturing row used as test data. -/
def companyB : Company :=
  { sector := "Manufacturing", region := "Hessen", employees := 120,
    kwh_per_employee := 10000, cost_per_kwh := 12 / 100,
    annual_kwh := 1200000, annual_cost_eur := 144000 }

/-- A two-row peer group over the rows above. -/
def peersAB : List Company := [companyA, companyB]

/-- A concrete Manufacturing profile with a low negotiated rate. -/
def profileM : Profile :=
  { sector := "Manufacturing", region := "Bayern", employees := 100,
    annual_kwh := 1500000, cost_per_kwh := 1 / 10 }

/-- A concrete Chemical profile, a sector absent from `peersAB`. -/
def profileChem : Profile :=
  { sector := "Chemical", region := "Bayern", employees := 100,
    annual_kwh := 1500000, cost_per_kwh := 15 / 100 }

/-- A concrete draw record for the working_mvp dataset generator. -/
def drawMvp : MvpDraw :=
  { empDraw := 200, kpeDraw := 14000, regionIdx := 0, priceDraw := 1 }

/-- A concrete draw record for the data_fetcher dataset generator. -/
def drawFetcher : FetcherDraw :=
  { empDraw := 200, kpeDraw := 14000, regionIdx := 0, priceDraw := 1 }

end Examples

/-- The price schedule of claim C6 as a closed-form case split: written
from the claim's words, to be compared with `get_pricing_tier`. -/
def tierSpec (x : ℕ) : String × ℚ :=
  if x < 160000 then ("tier_1", 1709 / 100)
  else if x ≤ 20000000 then ("tier_1", 1709 / 100)
  else if x ≤ 70000000 then ("tier_2", 1699 / 100)
  else if x ≤ 150000000 then ("tier_3", 1412 / 100)
  else ("enterprise", 1250 / 100)

/-- The key list of REAL_ENERGY_INTENSITIES, in table order. -/
def sectorKeys : List String :=
  ["Manufacturing", "Chemical", "Food Production", "Automotive",
   "Metals", "Paper", "Electronics", "Textiles"]

open EnergyApp RealGermanData Fetchers Generators Examples


/-- The fallback cascade written sequentially (as in the code) agrees with
the fallback cascade written as nested conditionals (as in the spec). -/
theorem cascade_eq (A S df : List Company) :
    (if (if A.length < 5 then S else A).length < 5 then df
     else if A.length < 5 then S else A)
      = (if 5 ≤ A.length then A else if 5 ≤ S.length then S else df) := by
  by_cases h1 : A.length < 5
  · by_cases h2 : S.length < 5
    · simp [h1, h2, Nat.not_le.mpr h1, Nat.not_le.mpr h2]
    · simp [h1, Nat.not_lt.mp h2, Nat.not_le.mpr h1]
  · simp [h1, Nat.not_lt.mp h1]

theorem band_filter_eq (df : List Company) (p : Profile) :
    df.filter (matchesSectorSize p)
      = df.filter fun c =>
          c.sector == p.sector
            && decide ((7 / 10) * p.employees ≤ c.employees)
            && decide (c.employees ≤ (13 / 10) * p.employees) := by
  apply List.filter_congr
  intro c _
  unfold matchesSectorSize
  rw [mul_comm p.employees (7 / 10), mul_comm p.employees (13 / 10)]

/-- C2: both full peer-selection routines return the sector+size band, the
sector rows when the band has fewer than 5 rows, and the whole dataset
when the sector rows still number fewer than 5. -/
theorem C2_peer_selection_refines_spec (df : List Company) (p : Profile) :
    find_peers df p = peersSpec df p ∧ find_peer_companies p df = peersSpec df p := by
  constructor <;>
  · simp only [find_peers, find_peer_companies, peersSpec, band_filter_eq]
    exact cascade_eq _ _ _

/-- C4 (amended): the two full-fallback routines return a non-empty peer
group on every non-empty dataset; the simple_app variant returns a
non-empty peer group exactly when some row carries the profile's sector. -/
theorem C4_peer_nonempty_amended (df : List Company) (p : Profile) :
    (df ≠ [] → find_peers df p ≠ []) ∧
    (df ≠ [] → find_peer_companies p df ≠ []) ∧
    (peer_companies_simple df p ≠ [] ↔ ∃ c ∈ df, c.sector = p.sector) := by
  refine ⟨?_, ?_, ?_⟩
  · intro h
    simp only [find_peers]
    split_ifs with h1 h2
    · exact h
    · exact List.length_pos.mp (by omega)
    · exact List.length_pos.mp (by omega)
  · intro h
    simp only [find_peer_companies]
    split_ifs with h1 h2
    · exact h
    · exact List.length_pos.mp (by omega)
    · exact List.length_pos.mp (by omega)
  · constructor
    · intro hne
      simp only [peer_companies_simple] at hne
      split_ifs at hne with h1
      · obtain ⟨c, hc⟩ := List.exists_mem_of_ne_nil _ hne
        have hm := List.mem_filter.mp hc
        exact ⟨c, hm.1, by simpa using hm.2⟩
      · obtain ⟨c, hc⟩ := List.exists_mem_of_ne_nil _ hne
        have hm := List.mem_filter.mp hc
        have hs : c.sector == p.sector := by
          have := hm.2
          simp only [matchesSectorSize, Bool.and_eq_true] at this
          exact this.1.1
        exact ⟨c, hm.1, by simpa using hs⟩
    · rintro ⟨c, hc, hsec⟩
      simp only [peer_companies_simple]
      split_ifs with h1
      · have : c ∈ df.filter (fun c => c.sector == p.sector) :=
          List.mem_filter.mpr ⟨hc, by simp [hsec]⟩
        exact List.ne_nil_of_mem this
      · exact List.length_pos.mp (by omega)

/-- C9: `benchmark_company` leaves the benchmarker state untouched and its
result echoes the profile, the peer-group size and the user metrics
computed from the profile. -/
theorem C9_benchmark_company_frame (st : BenchmarkerState) (p : Profile) :
    (benchmark_company st p).1 = st ∧
    (benchmark_company st p).2.company_profile = p ∧
    (benchmark_company st p).2.peer_group_size = (find_peers st.df p).length ∧
    (benchmark_company st p).2.user_metrics.kwh_per_employee
      = p.annual_kwh / p.employees ∧
    (benchmark_company st p).2.user_metrics.annual_cost_eur
      = p.annual_kwh * p.cost_per_kwh ∧
    (benchmark_company st p).2.user_metrics.cost_per_kwh = p.cost_per_kwh :=
  ⟨rfl, rfl, rfl, rfl, rfl, rfl⟩

/-- C4 counterexample: a one-row Manufacturing dataset with a Chemical
profile is non-empty, yet the simple_app selection returns no peers. -/
theorem C4_simple_app_counterexample :
    ([companyA] : List Company) ≠ [] ∧
    peer_companies_simple [companyA] profileChem = [] := by
  constructor
  · simp
  · norm_num [peer_companies_simple, matchesSectorSize, companyA, profileChem,
      List.filter_cons, beq_iff_eq]
    decide

/-- C4 witness: the amended theorem applied to the one-row dataset. -/
theorem C4_peer_nonempty_witness :
    ([companyA] : List Company) ≠ [] ∧ find_peers [companyA] profileM ≠ [] :=
  ⟨by simp, (C4_peer_nonempty_amended [companyA] profileM).1 (by simp)⟩

/-- C1 (amended): in every benchmark variant, the efficiency percentile is
100 times the fraction of peers with kwh_per_employee strictly above the
subject's annual_kwh / employees, and the cost percentile is 100 times the
fraction of peers with cost_per_kwh strictly BELOW the subject's. -/
theorem C1_percentile_formulas (meta : Option (Option ℚ)) (p : Profile)
    (peers : List Company) (_hne : peers ≠ []) :
    (calculate_benchmarks_calc meta p peers
        (p.annual_kwh / p.employees)).efficiency_percentile
      = ((peers.countP fun c =>
            decide (p.annual_kwh / p.employees < c.kwh_per_employee) : ℚ)
          / peers.length) * 100 ∧
    (calculate_benchmarks_calc meta p peers
        (p.annual_kwh / p.employees)).cost_percentile
      = ((peers.countP fun c =>
            decide (c.cost_per_kwh < p.cost_per_kwh) : ℚ)
          / peers.length) * 100 ∧
    (calculate_benchmarks_mvp p peers).efficiency_percentile
      = ((peers.countP fun c =>
            decide (p.annual_kwh / p.employees < c.kwh_per_employee) : ℚ)
          / peers.length) * 100 ∧
    (calculate_benchmarks_mvp p peers).cost_percentile
      = ((peers.countP fun c =>
            decide (c.cost_per_kwh < p.cost_per_kwh) : ℚ)
          / peers.length) * 100 ∧
    efficiency_percentile_simple peers (p.annual_kwh / p.employees)
      = ((peers.countP fun c =>
            decide (p.annual_kwh / p.employees < c.kwh_per_employee) : ℚ)
          / peers.length) * 100 ∧
    cost_percentile_simple peers p.cost_per_kwh
      = ((peers.countP fun c =>
            decide (c.cost_per_kwh < p.cost_per_kwh) : ℚ)
          / peers.length) * 100 :=
  ⟨rfl, rfl, rfl, rfl, rfl, rfl⟩

/-- C1 witness: the amended formulas evaluated at a concrete profile and
two-row peer group. -/
theorem C1_percentile_formulas_witness :
    (peersAB : List Company) ≠ [] ∧
    (calculate_benchmarks_calc none profileM peersAB
        (profileM.annual_kwh / profileM.employees)).cost_percentile
      = ((peersAB.countP fun c =>
            decide (c.cost_per_kwh < profileM.cost_per_kwh) : ℚ)
          / peersAB.length) * 100 :=
  ⟨by simp [peersAB], (C1_percentile_formulas none profileM peersAB (by simp [peersAB])).2.1⟩

/-- C1 counterexample: with a subject rate of 0.10 EUR/kWh below both peer
rates, the code reports a cost percentile of 0 while the fraction of peers
with a strictly higher cost_per_kwh is 1, so the claimed formula (fraction
strictly greater, times 100) gives 100. -/
theorem C1_cost_percentile_counterexample :
    ¬ ((calculate_benchmarks_calc none profileM peersAB
          (profileM.annual_kwh / profileM.employees)).cost_percentile
        = ((peersAB.countP fun c =>
              decide (profileM.cost_per_kwh < c.cost_per_kwh) : ℚ)
            / peersAB.length) * 100) := by
  norm_num [calculate_benchmarks_calc, booleanMeanPct, peersAB, profileM,
    companyA, companyB, List.countP_cons]

theorem ite_gap_mul2 (g a b : ℚ) :
    (if 0 < g then g * a * b else 0) = max 0 g * a * b := by
  by_cases h : 0 < g
  · rw [if_pos h, max_eq_right h.le]
  · rw [if_neg h, max_eq_left (not_lt.mp h), zero_mul, zero_mul]

theorem ite_gap_mul_left (g a : ℚ) :
    (if 0 < g then a * g else 0) = max 0 g * a := by
  by_cases h : 0 < g
  · rw [if_pos h, max_eq_right h.le, mul_comm]
  · rw [if_neg h, max_eq_left (not_lt.mp h), zero_mul]

/-- C3: in both benchmark routines the efficiency savings equal
max(0, user intensity minus peer 25th-percentile intensity) times
employees times the user rate, the cost savings equal max(0, user rate
minus peer median rate) times annual consumption, the total is their sum,
and all three are non-negative for a profile with non-negative employees,
rate and consumption. -/
theorem C3_savings_potential (meta : Option (Option ℚ)) (p : Profile)
    (peers : List Company) (userKpe : ℚ) (_hne : peers ≠ [])
    (hemp : 0 ≤ p.employees) (hcost : 0 ≤ p.cost_per_kwh)
    (hann : 0 ≤ p.annual_kwh) :
    ((calculate_benchmarks_calc meta p peers userKpe).savings_potential.efficiency_eur
        = max 0 (userKpe - pandasQuantile (peers.map (·.kwh_per_employee)) (1 / 4))
            * p.employees * p.cost_per_kwh ∧
      (calculate_benchmarks_calc meta p peers userKpe).savings_potential.cost_eur
        = max 0 (p.cost_per_kwh - pandasMedian (peers.map (·.cost_per_kwh)))
            * p.annual_kwh ∧
      (calculate_benchmarks_calc meta p peers userKpe).savings_potential.total_eur
        = (calculate_benchmarks_calc meta p peers userKpe).savings_potential.efficiency_eur
            + (calculate_benchmarks_calc meta p peers userKpe).savings_potential.cost_eur ∧
      0 ≤ (calculate_benchmarks_calc meta p peers userKpe).savings_potential.efficiency_eur ∧
      0 ≤ (calculate_benchmarks_calc meta p peers userKpe).savings_potential.cost_eur ∧
      0 ≤ (calculate_benchmarks_calc meta p peers userKpe).savings_potential.total_eur) ∧
    ((calculate_benchmarks_mvp p peers).efficiency_savings_eur
        = max 0 (p.annual_kwh / p.employees
              - pandasQuantile (peers.map (·.kwh_per_employee)) (1 / 4))
            * p.employees * p.cost_per_kwh ∧
      (calculate_benchmarks_mvp p peers).cost_savings_eur
        = max 0 (p.cost_per_kwh - pandasMedian (peers.map (·.cost_per_kwh)))
            * p.annual_kwh ∧
      (calculate_benchmarks_mvp p peers).total_savings_eur
        = (calculate_benchmarks_mvp p peers).efficiency_savings_eur
            + (calculate_benchmarks_mvp p peers).cost_savings_eur ∧
      0 ≤ (calculate_benchmarks_mvp p peers).efficiency_savings_eur ∧
      0 ≤ (calculate_benchmarks_mvp p peers).cost_savings_eur ∧
      0 ≤ (calculate_benchmarks_mvp p peers).total_savings_eur) := by
  have e1 : (calculate_benchmarks_calc meta p peers userKpe).savings_potential.efficiency_eur
      = max 0 (userKpe - pandasQuantile (peers.map (·.kwh_per_employee)) (1 / 4))
          * p.employees * p.cost_per_kwh := ite_gap_mul2 _ _ _
  have e2 : (calculate_benchmarks_calc meta p peers userKpe).savings_potential.cost_eur
      = max 0 (p.cost_per_kwh - pandasMedian (peers.map (·.cost_per_kwh)))
          * p.annual_kwh := ite_gap_mul_left _ _
  have m1 : (calculate_benchmarks_mvp p peers).efficiency_savings_eur
      = max 0 (p.annual_kwh / p.employees
            - pandasQuantile (peers.map (·.kwh_per_employee)) (1 / 4))
          * p.employees * p.cost_per_kwh := ite_gap_mul2 _ _ _
  have m2 : (calculate_benchmarks_mvp p peers).cost_savings_eur
      = max 0 (p.cost_per_kwh - pandasMedian (peers.map (·.cost_per_kwh)))
          * p.annual_kwh := ite_gap_mul_left _ _
  have n1 : 0 ≤ (calculate_benchmarks_calc meta p peers userKpe).savings_potential.efficiency_eur := by
    rw [e1]; exact mul_nonneg (mul_nonneg (le_max_left 0 _) hemp) hcost
  have n2 : 0 ≤ (calculate_benchmarks_calc meta p peers userKpe).savings_potential.cost_eur := by
    rw [e2]; exact mul_nonneg (le_max_left 0 _) hann
  have nm1 : 0 ≤ (calculate_benchmarks_mvp p peers).efficiency_savings_eur := by
    rw [m1]; exact mul_nonneg (mul_nonneg (le_max_left 0 _) hemp) hcost
  have nm2 : 0 ≤ (calculate_benchmarks_mvp p peers).cost_savings_eur := by
    rw [m2]; exact mul_nonneg (le_max_left 0 _) hann
  exact ⟨⟨e1, e2, rfl, n1, n2, add_nonneg n1 n2⟩,
    ⟨m1, m2, rfl, nm1, nm2, add_nonneg nm1 nm2⟩⟩

/-- C3 witness: the savings formulas applied to a concrete profile and
two-row peer group. -/
theorem C3_savings_potential_witness :
    ((peersAB : List Company) ≠ [] ∧ (0 : ℚ) ≤ profileM.employees ∧
      (0 : ℚ) ≤ profileM.cost_per_kwh ∧ (0 : ℚ) ≤ profileM.annual_kwh) ∧
    0 ≤ (calculate_benchmarks_calc none profileM peersAB
          15000).savings_potential.total_eur :=
  ⟨⟨by simp [peersAB], by norm_num [profileM], by norm_num [profileM],
     by norm_num [profileM]⟩,
   ((C3_savings_potential none profileM peersAB 15000 (by simp [peersAB])
       (by norm_num [profileM]) (by norm_num [profileM])
       (by norm_num [profileM])).1).2.2.2.2.2⟩

theorem pct_bounds (cnt n : ℕ) (hc : cnt ≤ n) (hn : 0 < n) :
    0 ≤ booleanMeanPct cnt n ∧ booleanMeanPct cnt n ≤ 100 := by
  unfold booleanMeanPct
  have hn' : (0 : ℚ) < n := by exact_mod_cast hn
  constructor
  · positivity
  · have h1 : (cnt : ℚ) / n ≤ 1 := by
      rw [div_le_one hn']
      exact_mod_cast hc
    calc (cnt : ℚ) / n * 100 ≤ 1 * 100 :=
          mul_le_mul_of_nonneg_right h1 (by norm_num)
      _ = 100 := one_mul _

/-- C7: for a non-empty peer group, both percentiles returned by either
benchmark routine lie in [0, 100]. -/
theorem C7_percentile_bounds (meta : Option (Option ℚ)) (p : Profile)
    (peers : List Company) (userKpe : ℚ) (hne : peers ≠ []) :
    (0 ≤ (calculate_benchmarks_calc meta p peers userKpe).efficiency_percentile ∧
      (calculate_benchmarks_calc meta p peers userKpe).efficiency_percentile ≤ 100) ∧
    (0 ≤ (calculate_benchmarks_calc meta p peers userKpe).cost_percentile ∧
      (calculate_benchmarks_calc meta p peers userKpe).cost_percentile ≤ 100) ∧
    (0 ≤ (calculate_benchmarks_mvp p peers).efficiency_percentile ∧
      (calculate_benchmarks_mvp p peers).efficiency_percentile ≤ 100) ∧
    (0 ≤ (calculate_benchmarks_mvp p peers).cost_percentile ∧
      (calculate_benchmarks_mvp p peers).cost_percentile ≤ 100) := by
  have hlen : 0 < peers.length := List.length_pos.mpr hne
  exact ⟨pct_bounds _ _ (List.countP_le_length _) hlen,
    pct_bounds _ _ (List.countP_le_length _) hlen,
    pct_bounds _ _ (List.countP_le_length _) hlen,
    pct_bounds _ _ (List.countP_le_length _) hlen⟩

/-- C7 witness: the percentile bounds at a concrete profile and two-row
peer group. -/
theorem C7_percentile_bounds_witness :
    (peersAB : List Company) ≠ [] ∧
    0 ≤ (calculate_benchmarks_calc none profileM peersAB 15000).efficiency_percentile :=
  ⟨by simp [peersAB],
   ((C7_percentile_bounds none profileM peersAB 15000 (by simp [peersAB])).1).1⟩


/-- C6: `get_pricing_tier` is total on naturals, returns the tier and rate
given by the consumption ranges of the claim, and exactly one of the five
ranges applies to every input. -/
theorem C6_pricing_tier_total (x : ℕ) :
    ((get_pricing_tier x).tier, (get_pricing_tier x).price_ct_kwh) = tierSpec x ∧
    ((if 160000 ≤ x ∧ x ≤ 20000000 then 1 else 0)
      + (if 20000000 < x ∧ x ≤ 70000000 then 1 else 0)
      + (if 70000000 < x ∧ x ≤ 150000000 then 1 else 0)
      + (if x < 160000 then 1 else 0)
      + (if 150000000 < x then 1 else 0)) = 1 := by
  constructor
  · simp only [get_pricing_tier, firstMatchingTier, REAL_PRICING_TIERS, tierSpec]
    split_ifs <;> first | rfl | omega
  · split_ifs <;> omega


/-- C8: both sector helpers reject exactly the sectors outside the 8 table
keys, and for each known sector `calculate_annual_consumption` returns
employees times the table intensity. -/
theorem C8_sector_lookup_errors (e : ℤ) (u : ℚ) (s : String) :
    (s ∉ sectorKeys →
      (calculate_annual_consumption e s).isOk = false ∧
      (get_sector_efficiency_rank u s).isOk = false) ∧
    (s ∈ sectorKeys →
      (calculate_annual_consumption e s).isOk = true ∧
      (get_sector_efficiency_rank u s).isOk = true) ∧
    calculate_annual_consumption e "Manufacturing" = .ok (e * 25800) ∧
    calculate_annual_consumption e "Chemical" = .ok (e * 86940) ∧
    calculate_annual_consumption e "Food Production" = .ok (e * 24720) ∧
    calculate_annual_consumption e "Automotive" = .ok (e * 17170) ∧
    calculate_annual_consumption e "Metals" = .ok (e * 92080) ∧
    calculate_annual_consumption e "Paper" = .ok (e * 132910) ∧
    calculate_annual_consumption e "Electronics" = .ok (e * 9310) ∧
    calculate_annual_consumption e "Textiles" = .ok (e * 10940) := by
  have hfind : s ∉ sectorKeys → intensityOf s = none := by
    intro h
    simp only [sectorKeys, List.mem_cons, not_or, List.not_mem_nil, not_false_iff,
      and_true] at h
    obtain ⟨h1, h2, h3, h4, h5, h6, h7, h8⟩ := h
    have f1 : ("Manufacturing" == s) = false := beq_eq_false_iff_ne.mpr (Ne.symm h1)
    have f2 : ("Chemical" == s) = false := beq_eq_false_iff_ne.mpr (Ne.symm h2)
    have f3 : ("Food Production" == s) = false := beq_eq_false_iff_ne.mpr (Ne.symm h3)
    have f4 : ("Automotive" == s) = false := beq_eq_false_iff_ne.mpr (Ne.symm h4)
    have f5 : ("Metals" == s) = false := beq_eq_false_iff_ne.mpr (Ne.symm h5)
    have f6 : ("Paper" == s) = false := beq_eq_false_iff_ne.mpr (Ne.symm h6)
    have f7 : ("Electronics" == s) = false := beq_eq_false_iff_ne.mpr (Ne.symm h7)
    have f8 : ("Textiles" == s) = false := beq_eq_false_iff_ne.mpr (Ne.symm h8)
    simp [intensityOf, REAL_ENERGY_INTENSITIES, List.find?,
      f1, f2, f3, f4, f5, f6, f7, f8]
  refine ⟨?_, ?_, ?_, ?_, ?_, ?_, ?_, ?_, ?_, ?_⟩
  · intro h
    have hn := hfind h
    constructor
    · simp [calculate_annual_consumption, hn, Except.isOk, Except.toBool]
    · simp [get_sector_efficiency_rank, hn, Except.isOk, Except.toBool]
  · intro h
    simp only [sectorKeys, List.mem_cons, List.not_mem_nil, or_false] at h
    rcases h with rfl | rfl | rfl | rfl | rfl | rfl | rfl | rfl <;>
      constructor <;>
      simp [calculate_annual_consumption, get_sector_efficiency_rank,
        intensityOf, REAL_ENERGY_INTENSITIES, List.find?, Except.isOk,
        Except.toBool]
  all_goals
    simp [calculate_annual_consumption, intensityOf, REAL_ENERGY_INTENSITIES,
      List.find?]

/-- C8 witness: an unknown sector is rejected and a known sector accepted,
at concrete inputs. -/
theorem C8_sector_lookup_errors_witness :
    ("Banking" ∉ sectorKeys ∧ "Paper" ∈ sectorKeys) ∧
    ((calculate_annual_consumption 7 "Banking").isOk = false ∧
      (calculate_annual_consumption 7 "Paper").isOk = true) :=
  ⟨⟨by decide, by decide⟩,
   ⟨((C8_sector_lookup_errors 7 1 "Banking").1 (by decide)).1,
    ((C8_sector_lookup_errors 7 1 "Paper").2.1 (by decide)).1⟩⟩

/-- C5 (amended): `fetch_energy_charts_consumption` returns statistics that
never depend on the response body; `fetch_fraunhofer_energy_charts`
depends on the body only through whether it parses to a JSON object (the
`api_data_available` flag); in both, any non-200 status or exception
yields the hardcoded fallback table. -/
theorem C5_fetch_decorative_amended :
    (∀ (b1 b2 : Json) (now : String),
      fetch_energy_charts_consumption (some (200, b1)) now
        = fetch_energy_charts_consumption (some (200, b2)) now) ∧
    (∀ (resp : HttpOutcome) (now : String),
      (resp = none ∨ ∃ st b, resp = some (st, b) ∧ st ≠ 200) →
      fetch_energy_charts_consumption resp now
        = .fallback (get_fallback_consumption_data now)) ∧
    (∀ (b1 b2 : Json) (ts : String), b1.isObj = b2.isObj →
      fetch_fraunhofer_energy_charts (some (200, b1)) ts
        = fetch_fraunhofer_energy_charts (some (200, b2)) ts) ∧
    (∀ (resp : HttpOutcome) (ts : String),
      (resp = none ∨ ∃ st b, resp = some (st, b) ∧ st ≠ 200) →
      fetch_fraunhofer_energy_charts resp ts
        = .fallback (get_fallback_energy_data ts)) := by
  refine ⟨?_, ?_, ?_, ?_⟩
  · intro b1 b2 now
    simp [fetch_energy_charts_consumption, process_energy_charts_data_df]
  · rintro resp now (rfl | ⟨st, b, rfl, hst⟩)
    · rfl
    · simp [fetch_energy_charts_consumption, hst]
  · intro b1 b2 ts h
    simp [fetch_fraunhofer_energy_charts, process_energy_charts_data_fr, h]
  · rintro resp ts (rfl | ⟨st, b, rfl, hst⟩)
    · rfl
    · simp [fetch_fraunhofer_energy_charts, hst]

/-- C5 counterexample: two successful fetches at the same clock reading,
one whose body parses to a JSON object and one to a JSON array, make
`fetch_fraunhofer_energy_charts` return different dictionaries (the
`api_data_available` flag differs), refuting that the result never depends
on the fetched content. -/
theorem C5_body_shape_counterexample :
    fetch_fraunhofer_energy_charts (some (200, Json.obj [])) "t"
      ≠ fetch_fraunhofer_energy_charts (some (200, Json.arr [])) "t" := by
  simp [fetch_fraunhofer_energy_charts, process_energy_charts_data_fr, Json.isObj]

/-- C5 witness: a 404 response falls back to the hardcoded table. -/
theorem C5_fetch_decorative_witness :
    ((some (404, Json.null) : HttpOutcome) = none ∨
      ∃ st b, (some (404, Json.null) : HttpOutcome) = some (st, b) ∧ st ≠ 200) ∧
    fetch_energy_charts_consumption (some (404, Json.null)) "t"
      = .fallback (get_fallback_consumption_data "t") := by
  have h : (some (404, Json.null) : HttpOutcome) = none ∨
      ∃ st b, (some (404, Json.null) : HttpOutcome) = some (st, b) ∧ st ≠ 200 :=
    Or.inr ⟨404, Json.null, rfl, by omega⟩
  exact ⟨h, C5_fetch_decorative_amended.2.1 _ "t" h⟩

theorem mkCompanyMvp_bounds (s : String) (d : MvpDraw) :
    50 ≤ (mkCompanyMvp s d).employees ∧ (mkCompanyMvp s d).employees ≤ 500 ∧
    3000 ≤ (mkCompanyMvp s d).kwh_per_employee ∧
    1 / 10 ≤ (mkCompanyMvp s d).cost_per_kwh ∧
    (mkCompanyMvp s d).cost_per_kwh ≤ 1 / 4 ∧
    (mkCompanyMvp s d).annual_kwh
      = (mkCompanyMvp s d).kwh_per_employee * (mkCompanyMvp s d).employees :=
  ⟨le_max_left _ _, max_le (by norm_num) (min_le_left _ _), le_max_left _ _,
   le_max_left _ _, max_le (by norm_num) (min_le_left _ _), rfl⟩

theorem mkCompanyFetcher_bounds (s : String) (d : FetcherDraw) :
    50 ≤ (mkCompanyFetcher s d).employees ∧
    (mkCompanyFetcher s d).employees ≤ 500 ∧
    3000 ≤ (mkCompanyFetcher s d).kwh_per_employee ∧
    1 / 10 ≤ (mkCompanyFetcher s d).cost_per_kwh ∧
    (mkCompanyFetcher s d).cost_per_kwh ≤ 1 / 4 ∧
    (mkCompanyFetcher s d).annual_kwh
      = (mkCompanyFetcher s d).kwh_per_employee * (mkCompanyFetcher s d).employees :=
  ⟨le_max_left _ _, max_le (by norm_num) (min_le_left _ _), le_max_left _ _,
   le_max_left _ _, max_le (by norm_num) (min_le_left _ _), rfl⟩

/-- C10: every row of either generated dataset has 50-500 employees, at
least 3000 kWh per employee, a rate within [0.10, 0.25] EUR/kWh, and an
annual consumption equal to intensity times employees, for every possible
random draw stream. -/
theorem C10_generated_rows_invariant (dm : String → ℕ → MvpDraw)
    (dfd : String → ℕ → FetcherDraw) (c : Company)
    (hc : c ∈ create_german_energy_dataset dm ∨
          c ∈ create_real_benchmark_dataset dfd) :
    50 ≤ c.employees ∧ c.employees ≤ 500 ∧ 3000 ≤ c.kwh_per_employee ∧
    1 / 10 ≤ c.cost_per_kwh ∧ c.cost_per_kwh ≤ 1 / 4 ∧
    c.annual_kwh = c.kwh_per_employee * c.employees := by
  rcases hc with hc | hc
  · simp only [create_german_energy_dataset, List.mem_flatMap, List.mem_map,
      List.mem_range] at hc
    obtain ⟨sd, _, i, _, rfl⟩ := hc
    exact mkCompanyMvp_bounds _ _
  · simp only [create_real_benchmark_dataset, List.mem_flatMap, List.mem_map,
      List.mem_range] at hc
    obtain ⟨sd, _, i, _, rfl⟩ := hc
    exact mkCompanyFetcher_bounds _ _

/-- C10 witness: a concrete row of the working_mvp dataset under a
constant draw stream satisfies the invariant. -/
theorem C10_generated_rows_invariant_witness :
    (mkCompanyMvp "Manufacturing" drawMvp
        ∈ create_german_energy_dataset (fun _ _ => drawMvp) ∨
      mkCompanyMvp "Manufacturing" drawMvp
        ∈ create_real_benchmark_dataset (fun _ _ => drawFetcher)) ∧
    50 ≤ (mkCompanyMvp "Manufacturing" drawMvp).employees := by
  have hm : mkCompanyMvp "Manufacturing" drawMvp
      ∈ create_german_energy_dataset (fun _ _ => drawMvp) := by
    simp only [create_german_energy_dataset, List.mem_flatMap, List.mem_map,
      List.mem_range]
    refine ⟨{ name := "Manufacturing", base_kwh_employee := 14567,
              std_dev := 4500, companies := 80 }, ?_, 0, by norm_num, rfl⟩
    simp [sectors_data]
  exact ⟨Or.inl hm,
    (C10_generated_rows_invariant (fun _ _ => drawMvp) (fun _ _ => drawFetcher)
      _ (Or.inl hm)).1⟩
